import Mathlib

/-!
Verification development for the peer-to-peer slave worker (`peer/src/peerslave.c`).

The definitions below are a shallow embedding of the data model and the
operations of `peerslave.c`: the slave-loop state machine (`slaveStep`,
`runSlave`), the engine step sequence (`engineSteps`), the result-send
protocol (`sendResults`), the supervisor loop (`superStep`, `superRun`)
and the command-line startup (`mainStartup`).  Mutex acquisitions,
announces, engine calls and socket operations are recorded as explicit
events so that locking discipline and protocol ordering can be stated.
Machine integers are modelled as `Nat` (the resource fields are unsigned
integers per the data model); serialized payloads are opaque and are
carried as the deserialized values they encode.
-/

/-- Peer status, `STATUS_IDLE` / `STATUS_BUSY` / `STATUS_ZOMBIE`. -/
inductive Status
  | idle
  | busy
  | zombie
deriving DecidableEq, Repr

/-- `current_t`: what the node is doing right now. -/
structure CurrentT where
  hostid : Nat
  jobid : Nat
  name : String
  user : String
  group : String
  timreq : Nat
  memreq : Nat
  cpureq : Nat
deriving DecidableEq, Repr

/-- `bzero(&(host->current), sizeof(current_t))`: the all-zero current job. -/
def zeroCurrent : CurrentT :=
  { hostid := 0, jobid := 0, name := "", user := "", group := "",
    timreq := 0, memreq := 0, cpureq := 0 }

/-- `hostdef_t`: this node's self-description. -/
structure HostDef where
  id : Nat
  name : String
  user : String
  group : String
  port : Nat
  socket : String
  memavail : Nat
  cpuavail : Nat
  timavail : Nat
  status : Status
  current : CurrentT
deriving DecidableEq, Repr

/-- `jobdef_t`: the fixed-size job descriptor frame. -/
structure JobDef where
  version : Nat
  id : Nat
  memreq : Nat
  cpureq : Nat
  timreq : Nat
  argsize : Nat
  optsize : Nat
deriving DecidableEq, Repr

/-- A cell of a MATLAB cell array as used by the slave: empty cell,
string (`mxCreateString`) or numeric scalar (`mxCreateDoubleScalar`,
always integral here). -/
inductive MxCell
  | empty
  | str (s : String)
  | num (n : Nat)
deriving DecidableEq, Repr

/-- `joblist_t` entry: submitter descriptor, job descriptor and the two
payloads.  Payloads are opaque blobs; we carry the deserialized values
they encode (`mxDeserialize(job->arg, ...)` etc.). -/
structure JobEntry where
  host : HostDef
  job : JobDef
  arg : List MxCell
  opt : List MxCell
deriving DecidableEq, Repr

/-- `peerlist_t` entry: an observed remote peer. -/
structure PeerEntry where
  host : HostDef
  ipaddr : String
deriving DecidableEq, Repr

/-- `#define ENGINETIMEOUT 180` -/
def ENGINETIMEOUT : Nat := 180

/-- `#define ZOMBIETIMEOUT 900` -/
def ZOMBIETIMEOUT : Nat := 900

/-- The protocol `VERSION` constant from the peer headers (opaque value). -/
def VERSION : Nat := 1

/-- Lines 608-611: `timallow = 3*job->job->timreq; if (host->timavail < timallow)
timallow = host->timavail;` -/
def computeTimallow (timreq timavail : Nat) : Nat :=
  let timallow := 3 * timreq
  if timavail < timallow then timavail else timallow

/-- Lines 626-636: copy the submitted options cell array into a fresh
`1 x (n+4)` cell matrix and append the `masterid` / `timallow` cells. -/
def buildOptions (previous : List MxCell) (peerid timallow : Nat) : List MxCell :=
  let n := previous.length
  let options0 := List.replicate (n + 4) MxCell.empty
  let options1 := (List.range n).foldl
    (fun acc i => acc.set i (previous.getD i MxCell.empty)) options0
  let options2 := ((options1.set (n + 0) (MxCell.str "masterid")).set
    (n + 1) (MxCell.num peerid))
  ((options2.set (n + 2) (MxCell.str "timallow")).set (n + 3) (MxCell.num timallow))

/-- Lines 720-731: the per-step `lasterr` message. -/
def failMessage (jobFailed : Nat) : String :=
  if jobFailed = 1 then "failed to execute the job (argin)"
  else if jobFailed = 2 then "failed to execute the job (optin)"
  else if jobFailed = 3 then "failed to execute the job (eval)"
  else if jobFailed = 4 then "failed to execute the job (argout)"
  else if jobFailed = 5 then "failed to execute the job (optout)"
  else "failed to execute the job"

/-- Lines 707-708 / 715-716: `argout = mxCreateCellMatrix(1,1)`. -/
def errArgout : List MxCell := List.replicate 1 MxCell.empty

/-- Lines 710-712: the synthesized options when the engine failed to start. -/
def engineFailOptions : List MxCell :=
  ((List.replicate 2 MxCell.empty).set 0 (MxCell.str "lasterr")).set 1
    (MxCell.str "could not start the matlab engine")

/-- Lines 718-731: the synthesized options when a job step failed. -/
def jobFailOptions (jobFailed : Nat) : List MxCell :=
  ((List.replicate 2 MxCell.empty).set 0 (MxCell.str "lasterr")).set 1
    (MxCell.str (failMessage jobFailed))

/-- The registry mutexes of the peer library used by `peerslave.c`. -/
inductive Mutex
  | host
  | joblist
  | peerlist
  | smartmem
  | smartcpu
  | smartshare
deriving DecidableEq, Repr

/-- The payload of one frame written by the result-send protocol.  Frames
are exchanged as packed structs / serialized blobs; we carry the values
they encode. -/
inductive FramePayload
  | hostF (h : HostDef)
  | jobdefF (d : JobDef)
  | argF (v : List MxCell)
  | optF (v : List MxCell)
deriving DecidableEq, Repr

/-- The kind of a frame, forgetting the payload. -/
inductive FrameKind
  | khost
  | kjobdef
  | karg
  | kopt
deriving DecidableEq, Repr

/-- Forget a frame's payload. -/
def FramePayload.kind : FramePayload → FrameKind
  | .hostF _ => .khost
  | .jobdefF _ => .kjobdef
  | .argF _ => .karg
  | .optF _ => .kopt

/-- Observable events of the slave loop: mutex operations, announces,
engine calls, connection management, handshake reads and frame writes.
`readHS i` is the i-th `bufread(server, &handshake, sizeof(int))` of the
result-send protocol (0 = the initial handshake); `writeFrame p` is a
`bufwrite` of the given frame. -/
inductive Event
  | lock (m : Mutex)
  | unlock (m : Mutex)
  | announce
  | engOpen
  | engClose
  | engPut (name : String) (v : List MxCell)
  | engEval (cmd : String)
  | engGet (name : String)
  | connOpen
  | connClose
  | readHS (i : Nat)
  | writeFrame (p : FramePayload)
  | sleep
deriving DecidableEq, Repr

/-- Definedness and value of the four locals read by the `cleanup` code
of the result-send protocol.  `none` means the variable holds an
indeterminate value (it was never assigned); for `server` a defined value
is the `int` it holds, for the three pointers a defined value records
whether the pointer is non-NULL. -/
structure SendVars where
  server : Option Int
  arg : Option Bool
  opt : Option Bool
  jdef : Option Bool
deriving DecidableEq, Repr

/-- At the top of `main`, `def` is initialized to NULL at its declaration
while `server`, `arg` and `opt` are declared without initializer: on the
first pass they are indeterminate. -/
def initialSendVars : SendVars :=
  { server := none, arg := none, opt := none, jdef := some false }

/-- Environment of one run of the result-send protocol: outcome of the
connection attempt, of each handshake read (`none` = short read, `some v`
= the int read), of the two serializations and the `malloc`, the
serialized sizes, and whether each `bufwrite` wrote the full frame. -/
structure SendEnv where
  openOk : Bool
  hs0 : Option Int
  serArgOk : Bool
  serOptOk : Bool
  mallocOk : Bool
  argSize : Nat
  optSize : Nat
  writeHostOk : Bool
  hs1 : Option Int
  writeDefOk : Bool
  hs2 : Option Int
  writeArgOk : Bool
  hs3 : Option Int
  writeOptOk : Bool
  hs4 : Option Int
deriving DecidableEq, Repr

/-- Lines 885-901, the `cleanup` label: close the socket iff `server>0`,
destroy the serialized blobs iff non-NULL, `FREE(def)`.  The trace holds
the events this emits; it is only meaningful when the variables are
defined. -/
def cleanupTrace (v : SendVars) : List Event :=
  match v.server with
  | some sv => if 0 < sv then [Event.connClose] else []
  | none => []

/-- The variable values after the `cleanup` code ran: `server` is reset
to 0 only when it was positive, non-NULL pointers become NULL,
`FREE(def)` leaves `def` NULL.  Indeterminate stays indeterminate. -/
def cleanupVars (v : SendVars) : SendVars :=
  { server :=
      match v.server with
      | some sv => if 0 < sv then some 0 else some sv
      | none => none,
    arg := match v.arg with | some _ => some false | none => none,
    opt := match v.opt with | some _ => some false | none => none,
    jdef := match v.jdef with | some _ => some false | none => none }

/-- Result of one run of the result-send protocol: the event trace
(including the cleanup), the variable state at the moment control reaches
the `cleanup` label, and the variable state after cleanup. -/
structure SendOut where
  tr : List Event
  atCleanup : SendVars
  varsAfter : SendVars
deriving DecidableEq, Repr

/-- Reach the `cleanup` label with trace `tr` and variables `v`. -/
def sendFinish (tr : List Event) (v : SendVars) : SendOut :=
  { tr := tr ++ cleanupTrace v, atCleanup := v, varsAfter := cleanupVars v }

/-- Lines 831-883: the framed exchange of the result-send protocol,
after `success = 1` (line 833).  Each frame is written only while
`success` still holds (`if (success) success = bufwrite(...) == size`),
the hostdef frame under `mutexhost`; the handshake reads in between are
unconditional, and a failed or zero handshake jumps to `cleanup` (after
the last handshake both outcomes fall through to `cleanup`). -/
def framesTrace (hd : HostDef) (jd : JobDef) (argout options : List MxCell)
    (env : SendEnv) : List Event :=
  let success := true
  let tr := [Event.lock Mutex.host] ++
    (if success then [Event.writeFrame (FramePayload.hostF hd)] else []) ++
    [Event.unlock Mutex.host]
  let success := if success then env.writeHostOk else success
  let tr := tr ++ [Event.readHS 1]
  match env.hs1 with
  | none => tr
  | some x1 =>
    if x1 = 0 then tr
    else
      let tr := tr ++ (if success then [Event.writeFrame (FramePayload.jobdefF jd)] else [])
      let success := if success then env.writeDefOk else success
      let tr := tr ++ [Event.readHS 2]
      match env.hs2 with
      | none => tr
      | some x2 =>
        if x2 = 0 then tr
        else
          let tr := tr ++ (if success then [Event.writeFrame (FramePayload.argF argout)] else [])
          let success := if success then env.writeArgOk else success
          let tr := tr ++ [Event.readHS 3]
          match env.hs3 with
          | none => tr
          | some x3 =>
            if x3 = 0 then tr
            else
              let tr := tr ++ (if success then [Event.writeFrame (FramePayload.optF options)] else [])
              let _success := if success then env.writeOptOk else success
              tr ++ [Event.readHS 4]

/-- Lines 738-901: send the results back to the master.  Direct
translation of the control flow: look the submitter up in the peer table
under `mutexpeerlist` (not-found jumps to `cleanup` BEFORE `server`,
`arg`, `opt` are initialized); decide UDS vs TCP under `mutexhost`;
initialize the cleanup variables; open the connection (still under
`mutexpeerlist`); then the framed exchange: initial handshake, serialize,
build the jobdef, and the four frame writes each followed by a handshake
read.  A frame is written only while `success` holds, but the handshake
reads are unconditional; a failed or zero handshake jumps to `cleanup`. -/
def sendResults (h : HostDef) (plist : List PeerEntry) (peerid jobid : Nat)
    (argout options : List MxCell) (v0 : SendVars) (env : SendEnv) : SendOut :=
  let tr := [Event.lock Mutex.peerlist]
  match plist.find? (fun p => p.host.id == peerid) with
  | none =>
      -- lines 750-754: unlock and `goto cleanup`; v0 is NOT initialized here
      sendFinish (tr ++ [Event.unlock Mutex.peerlist]) v0
  | some peer =>
      -- lines 756-759
      let tr := tr ++ [Event.lock Mutex.host, Event.unlock Mutex.host]
      let hasuds := decide (0 < peer.host.socket.length) && (peer.host.name == h.name)
      let hastcp := decide (0 < peer.host.port)
      -- lines 762-765: "these have to be initialized to NULL"
      let v : SendVars := { server := some 0, arg := some false, opt := some false, jdef := some false }
      if hasuds || hastcp then
        -- lines 767-782: open the UDS or TCP connection while holding mutexpeerlist
        let tr := tr ++ [Event.connOpen]
        if env.openOk = false then
          sendFinish (tr ++ [Event.unlock Mutex.peerlist]) { v with server := some (-1) }
        else
          let v := { v with server := some 1 }
          let tr := tr ++ [Event.unlock Mutex.peerlist]
          -- lines 792-799: initial handshake
          let tr := tr ++ [Event.readHS 0]
          match env.hs0 with
          | none => sendFinish tr v
          | some x0 =>
            if x0 = 0 then sendFinish tr v
            else
              -- lines 808-816: serialize argout and options
              if env.serArgOk = false then sendFinish tr v
              else
                let v := { v with arg := some true }
                if env.serOptOk = false then sendFinish tr v
                else
                  let v := { v with opt := some true }
                  -- lines 818-829: allocate and fill the jobdef
                  if env.mallocOk = false then sendFinish tr v
                  else
                    let v := { v with jdef := some true }
                    let jd : JobDef :=
                      { version := VERSION, id := jobid, memreq := 0, cpureq := 0,
                        timreq := 0, argsize := env.argSize, optsize := env.optSize }
                    -- lines 831-883: the framed exchange; the variables no
                    -- longer change, so its trace is a separate function
                    sendFinish (tr ++ framesTrace h jd argout options env) v
      else
        -- lines 783-787: no UDS and no TCP: unlock and `goto cleanup`
        sendFinish (tr ++ [Event.unlock Mutex.peerlist]) v

/-- Outcome of the five engine operations on one job, as provided by the
external engine: whether each `engPutVariable` / `engEvalString` /
`engGetVariable` fails, and the values retrieved on success. -/
structure EngineOutcome where
  putArginFails : Bool
  putOptionsFails : Bool
  evalFails : Bool
  getArgoutFails : Bool
  getOptionsFails : Bool
  argoutVal : List MxCell
  optionsVal : List MxCell
deriving DecidableEq, Repr

/-- Result of the engine step sequence, lines 638-672. -/
structure EngineResult where
  jobFailed : Nat
  aborted : Bool
  argout : List MxCell
  optionsOut : List MxCell
  tr : List Event
deriving DecidableEq, Repr

/-- Lines 638-672: `jobFailed = 0`, then the five guarded engine steps.
Each step runs only while `jobFailed` is still 0 (the `!jobFailed &&`
short-circuit), sets `jobFailed` to its own index on failure, and the
eval / get steps additionally set `engineAborted = 1`. -/
def engineSteps (eo : EngineOutcome) (argin optionsIn : List MxCell) : EngineResult :=
  let tr1 := [Event.engPut "argin" argin]
  let f1 : Nat := if eo.putArginFails = true then 1 else 0
  let tr2 := tr1 ++ (if f1 = 0 then [Event.engPut "options" optionsIn] else [])
  let f2 : Nat := if f1 = 0 ∧ eo.putOptionsFails = true then 2 else f1
  let tr3 := tr2 ++
    (if f2 = 0 then [Event.engEval "[argout, options] = peerexec(argin, options);"] else [])
  let f3 : Nat := if f2 = 0 ∧ eo.evalFails = true then 3 else f2
  let tr4 := tr3 ++ (if f3 = 0 then [Event.engGet "argout"] else [])
  let f4 : Nat := if f3 = 0 ∧ eo.getArgoutFails = true then 4 else f3
  let tr5 := tr4 ++ (if f4 = 0 then [Event.engGet "options"] else [])
  let f5 : Nat := if f4 = 0 ∧ eo.getOptionsFails = true then 5 else f4
  { jobFailed := f5, aborted := decide (f5 = 3 ∨ f5 = 4 ∨ f5 = 5),
    argout := eo.argoutVal, optionsOut := eo.optionsVal, tr := tr5 }

/-- The state of one slave process across slave-loop iterations. -/
structure SlaveState where
  host : HostDef
  joblist : List JobEntry
  peerlist : List PeerEntry
  matlabRunning : Bool
  matlabFinished : Nat
  engineFailed : Nat
  engineAborted : Bool
  jobFailed : Nat
  enginetimeout : Nat
  sendVars : SendVars
deriving DecidableEq, Repr

/-- Environment of one slave-loop iteration: the current time, whether
`engOpen(startcmd)` would succeed, the engine's behaviour on the job, and
the result-send environment. -/
structure IterInput where
  now : Nat
  engOpenOk : Bool
  eng : EngineOutcome
  env : SendEnv
deriving DecidableEq, Repr

/-- Modelled from the spec: `clear_joblist()` is provided by the shared
registry (spec 4.1), whose source is not part of this file; spec 4.4
step 11 says "Clear the job queue", so it empties the whole queue. -/
def clearJoblist (_l : List JobEntry) : List JobEntry := []

/-- Lines 534-544: stop the engine after it has been idle longer than the
engine timeout.  `matlabRunning` becomes 0 whether or not `engClose`
succeeds. -/
def idleClosePhase (s : SlaveState) (inp : IterInput) : SlaveState × List Event :=
  if s.matlabRunning = true ∧ s.enginetimeout < inp.now - s.matlabFinished then
    ({ s with matlabRunning := false }, [Event.engClose])
  else (s, [])

/-- Lines 564-587: start the engine if it is not running.  On failure,
record `engineFailed = now`, switch to ZOMBIE, zero `current`, announce. -/
def startEnginePhase (s : SlaveState) (inp : IterInput) : SlaveState × List Event :=
  if s.matlabRunning = true then (s, [])
  else if inp.engOpenOk = true then
    ({ s with engineFailed := 0, matlabRunning := true }, [Event.engOpen])
  else
    ({ s with engineFailed := inp.now, matlabRunning := false,
              host := { s.host with status := Status.zombie, current := zeroCurrent } },
     [Event.engOpen, Event.lock Mutex.host, Event.unlock Mutex.host, Event.announce])

/-- The values the job-execution block leaves behind for the result-send
code: the job and submitter ids, the computed allowance, and the engine's
output arguments. -/
structure ExecOut where
  jobid : Nat
  peerid : Nat
  timallow : Nat
  argout : List MxCell
  optionsOut : List MxCell
deriving DecidableEq, Repr

/-- Lines 589-674: take the front job under `mutexjoblist`, switch to
BUSY and fill `current` under `mutexhost`, compute `timallow`, announce
(still inside the joblist lock), deserialize the payloads, extend the
options with `masterid` and `timallow`, and drive the engine. -/
def execPhase (s : SlaveState) (inp : IterInput) (j : JobEntry) :
    SlaveState × List Event × ExecOut :=
  let cur : CurrentT :=
    { hostid := j.host.id, jobid := j.job.id, name := j.host.name,
      user := j.host.user, group := j.host.group,
      timreq := j.job.timreq, memreq := j.job.memreq, cpureq := j.job.cpureq }
  let timallow := computeTimallow j.job.timreq s.host.timavail
  let argin := j.arg
  let jobid := j.job.id
  let peerid := j.host.id
  let optionsExt := buildOptions j.opt peerid timallow
  let er := engineSteps inp.eng argin optionsExt
  let tr0 := [Event.lock Mutex.joblist, Event.lock Mutex.host, Event.unlock Mutex.host,
              Event.announce, Event.unlock Mutex.joblist]
  ({ s with host := { s.host with status := Status.busy, current := cur },
            jobFailed := er.jobFailed,
            engineAborted := s.engineAborted || er.aborted },
   tr0 ++ er.tr,
   { jobid := jobid, peerid := peerid, timallow := timallow,
     argout := er.argout, optionsOut := er.optionsOut })

/-- One iteration of the slave loop, lines 532-926: idle-engine close,
zombie-to-idle timeout (which `continue`s), queue check, engine start,
job execution, failure logging, error-result synthesis, result send,
joblist clearing, and the final switch back to IDLE when the engine had
not failed to start. -/
def slaveStep (s0 : SlaveState) (inp : IterInput) : SlaveState × List Event :=
  let p1 := idleClosePhase s0 inp
  let s := p1.1
  let trA := p1.2
  if s.engineFailed ≠ 0 ∧ ZOMBIETIMEOUT < inp.now - s.engineFailed then
    -- lines 547-559: back to idle, announce, continue
    ({ s with host := { s.host with status := Status.idle, current := zeroCurrent },
              engineFailed := 0 },
     trA ++ [Event.lock Mutex.host, Event.unlock Mutex.host, Event.announce])
  else
    match s.joblist with
    | [] =>
        -- line 923: threadsleep(SLEEPTIME)
        (s, trA ++ [Event.sleep])
    | j :: _rest =>
        let p2 := startEnginePhase s inp
        let s1 := p2.1
        let trB := p2.2
        let p3 :=
          if s1.matlabRunning = true then execPhase s1 inp j
          else (s1, [],
            { jobid := j.job.id, peerid := j.host.id, timallow := 0,
              argout := [], optionsOut := [] })
        let s2 := p3.1
        let trC := p3.2.1
        let eo := p3.2.2
        -- lines 676-704: failure logging re-reads the head job under mutexjoblist
        let trD := if s2.engineFailed ≠ 0 ∨ s2.jobFailed ≠ 0
                   then [Event.lock Mutex.joblist, Event.unlock Mutex.joblist] else []
        -- lines 706-732: synthesize the error results
        let outs :=
          if s2.engineFailed ≠ 0 then (errArgout, engineFailOptions)
          else if s2.jobFailed ≠ 0 then (errArgout, jobFailOptions s2.jobFailed)
          else (eo.argout, eo.optionsOut)
        -- lines 738-901: result-send protocol
        let so := sendResults s2.host s2.peerlist eo.peerid eo.jobid outs.1 outs.2
          s2.sendVars inp.env
        -- line 906: clear the joblist
        let s3 := { s2 with sendVars := so.varsAfter, joblist := clearJoblist s2.joblist }
        -- lines 908-920: back to IDLE unless the engine failed to start
        if s3.engineFailed = 0 then
          ({ s3 with host := { s3.host with status := Status.idle, current := zeroCurrent },
                     matlabFinished := inp.now },
           trA ++ trB ++ trC ++ trD ++ so.tr ++
             [Event.lock Mutex.host, Event.unlock Mutex.host, Event.announce])
        else
          (s3, trA ++ trB ++ trC ++ trD ++ so.tr)

/-- The slave loop `while (!engineAborted) ... return engineAborted`:
drive `slaveStep` over a list of iteration environments; `some 1` is the
process exiting with the value of `engineAborted`, `none` means the loop
is still running when the environments run out. -/
def runSlave (s : SlaveState) : List IterInput → Option Nat
  | [] => if s.engineAborted = true then some 1 else none
  | i :: rest =>
      if s.engineAborted = true then some 1
      else runSlave (slaveStep s i).1 rest

/-!  Supervisor (lines 288-352): the parent cycles over the circular list
of child configurations, reaps exited or signaled children (setting their
recorded pid to 0), and respawns any configuration with pid 0 after
incrementing `host->id` under `mutexhost`. -/

/-- What `waitpid(pid, &status, WNOHANG)` reports about a child. -/
inductive ChildStatus
  | exited
  | signaled
  | stopped
  | running
deriving DecidableEq, Repr

/-- Supervisor state: the shared `host->id` and the circular list of
child configuration pids, head = the configuration examined next. -/
structure SuperState where
  hostid : Nat
  ring : List Nat
deriving DecidableEq, Repr

/-- Environment of one supervisor iteration: what `waitpid` reports for
the current child, and the pid `fork` would return to the parent. -/
structure SupInput where
  status : ChildStatus
  newpid : Nat
deriving DecidableEq, Repr

/-- Supervisor events: `mutexhost` operations, the `host->id++`, and a
fork recording the id the child is spawned with. -/
inductive SupEvent
  | lockHost
  | incrId
  | unlockHost
  | forkChild (id : Nat) (pid : Nat)
deriving DecidableEq, Repr

/-- Lines 293-308: reap the current child.  Exited or signaled sets the
recorded pid to 0 (forcing a respawn); stopped (and still-running) leave
it alone. -/
def reapChild (pid : Nat) (st : ChildStatus) : Nat :=
  if pid ≠ 0 then
    match st with
    | ChildStatus.exited => 0
    | ChildStatus.signaled => 0
    | _ => pid
  else pid

/-- Lines 291-352, one pass of the monitoring loop for the configuration
at the head of the ring: reap, then if the recorded pid is 0 increment
`host->id` under `mutexhost` and fork; finally advance to the next
configuration (the ring rotates). -/
def superStep (s : SuperState) (inp : SupInput) : SuperState × List SupEvent :=
  match s.ring with
  | [] => (s, [])
  | p :: rest =>
      let p1 := reapChild p inp.status
      if p1 = 0 then
        ({ hostid := s.hostid + 1, ring := rest ++ [inp.newpid] },
         [SupEvent.lockHost, SupEvent.incrId, SupEvent.unlockHost,
          SupEvent.forkChild (s.hostid + 1) inp.newpid])
      else
        ({ s with ring := rest ++ [p1] }, [])

/-- Run the supervisor loop over a list of iteration environments,
collecting the events. -/
def superRun (s : SuperState) : List SupInput → List SupEvent
  | [] => []
  | i :: rest => (superStep s i).2 ++ superRun (superStep s i).1 rest

/-- The host ids at which children were forked, in order. -/
def forkIds (tr : List SupEvent) : List Nat :=
  tr.filterMap (fun e => match e with | SupEvent.forkChild i _ => some i | _ => none)

/-!  Startup (lines 111-246): with exactly one command-line argument the
program reads it as a configuration file; otherwise it parses the
arguments with getopt_long, panicking on an invalid option; afterwards a
set `help_flag` prints the usage message and exits 0. -/

/-- One command-line argument as getopt_long classifies it: `--help`
(sets `help_flag`), a recognized option with its required value, or
anything getopt rejects (unknown option, missing value), which hits the
`default: PANIC` case. -/
inductive Token
  | helpTok
  | valTok (idx : Nat) (val : String)
  | badTok
deriving DecidableEq, Repr

/-- Lines 126-239: the getopt_long loop.  Returns the final `help_flag`,
or `none` when an invalid option caused `PANIC("invalid command line
options")`. -/
def parseArgs : List Token → Bool → Option Bool
  | [], flag => some flag
  | Token.helpTok :: rest, _ => parseArgs rest true
  | Token.valTok _ _ :: rest, flag => parseArgs rest flag
  | Token.badTok :: _, _ => none

/-- How the startup section ends. -/
inductive Startup
  | exitHelp
  | panicked
  | proceed
deriving DecidableEq, Repr

/-- Lines 111-246.  `argvTail` is `argv[1..]`, so `argc == 2` is
`argvTail.length = 1`: that single argument is read as a configuration
file and `help_flag` stays 0 there.  `parsefileOk` is modelled from the
spec: `parsefile` (config parsing is an external collaborator, spec 1)
returns at least one peer configuration iff the argument names a readable
configuration file, and `PANIC` is fatal (spec 7: config error is fatal
at startup), not an exit-0 with usage. -/
def mainStartup (argvTail : List Token) (parsefileOk : Bool) : Startup :=
  if argvTail.length = 1 then
    if parsefileOk = false then Startup.panicked
    else Startup.proceed
  else
    match parseArgs argvTail false with
    | none => Startup.panicked
    | some flag => if flag = true then Startup.exitHelp else Startup.proceed

/-!  Locking discipline checkers over event traces. -/

/-- Lock combinations that actually occur in the slave loop: singletons,
`mutexhost` nested inside `mutexjoblist`, and `mutexhost` nested inside
`mutexpeerlist` (most recently locked first). -/
def allowedHeld (held : List Mutex) : Bool :=
  held == [] || held == [Mutex.host] || held == [Mutex.joblist] ||
  held == [Mutex.peerlist] || held == [Mutex.host, Mutex.joblist] ||
  held == [Mutex.host, Mutex.peerlist]

/-- Which held-lock sets each event is performed under in the slave
loop: engine calls, handshake reads, connection closes, sleeps and all
frame writes except the hostdef frame run lock-free; the hostdef frame is
written holding `mutexhost`; connections are opened holding
`mutexpeerlist`; the announce when claiming a job runs holding
`mutexjoblist`, all other announces lock-free. -/
def eventHeldOk (held : List Mutex) : Event → Bool
  | Event.lock m => allowedHeld (m :: held)
  | Event.unlock m => held.contains m
  | Event.announce => held == [] || held == [Mutex.joblist]
  | Event.engOpen => held == []
  | Event.engClose => held == []
  | Event.engPut _ _ => held == []
  | Event.engEval _ => held == []
  | Event.engGet _ => held == []
  | Event.connOpen => held == [Mutex.peerlist]
  | Event.connClose => held == []
  | Event.readHS _ => held == []
  | Event.writeFrame p =>
      match p with
      | FramePayload.hostF _ => held == [Mutex.host]
      | _ => held == []
  | Event.sleep => held == []

/-- Update the held-lock list by one event. -/
def applyEvent (held : List Mutex) : Event → List Mutex
  | Event.lock m => m :: held
  | Event.unlock m => held.erase m
  | _ => held

/-- Simulate the lock discipline over a trace: `none` on a violation of
`eventHeldOk`, otherwise the held locks at the end. -/
def discSim (held : List Mutex) : List Event → Option (List Mutex)
  | [] => some held
  | e :: tr => if eventHeldOk held e then discSim (applyEvent held e) tr else none

/-- Does any point of the trace hold two or more mutexes at once? -/
def twoHeldAt (held : List Mutex) : List Event → Bool
  | [] => false
  | e :: tr =>
      let held2 := applyEvent held e
      decide (2 ≤ held2.length) || twoHeldAt held2 tr

/-- The frame kinds written in a trace, in order. -/
def framesWritten : List Event → List FrameKind
  | [] => []
  | Event.writeFrame p :: tr => p.kind :: framesWritten tr
  | _ :: tr => framesWritten tr

/-- The handshake reads attempted in a trace, in order. -/
def hsReads : List Event → List Nat
  | [] => []
  | Event.readHS i :: tr => i :: hsReads tr
  | _ :: tr => hsReads tr

/-- The number of `announce_once()` calls in a trace. -/
def countAnnounce (tr : List Event) : Nat :=
  tr.count Event.announce

/-- The slave-observable part of the state: everything except the peer
table snapshot and the cleanup-variable bookkeeping. -/
def obsState (s : SlaveState) :
    HostDef × List JobEntry × Bool × Nat × Nat × Bool × Nat :=
  (s.host, s.joblist, s.matlabRunning, s.matlabFinished, s.engineFailed,
   s.engineAborted, s.jobFailed)

/-!  Helper lemmas. -/

/-- The copy loop of lines 630-631 transfers the first `n` cells of
`prev` into the front of `l`. -/
theorem copyLoop_eq (prev l : List MxCell) (n : Nat) (h1 : n ≤ prev.length)
    (h2 : prev.length ≤ l.length) :
    (List.range n).foldl (fun acc i => acc.set i (prev.getD i MxCell.empty)) l
      = prev.take n ++ l.drop n := by
  induction n with
  | zero => simp
  | succ n ih =>
      have hnp : n < prev.length := Nat.lt_of_succ_le h1
      have hnl : n < l.length := Nat.lt_of_lt_of_le hnp h2
      rw [List.range_succ, List.foldl_append, ih (Nat.le_of_succ_le h1)]
      simp only [List.foldl_cons, List.foldl_nil]
      have hlen : (prev.take n).length = n := by
        simp [List.length_take]; omega
      rw [List.set_append, hlen]
      simp only [Nat.lt_irrefl, if_false, Nat.sub_self]
      rw [List.drop_eq_getElem_cons hnl]
      simp only [List.set_cons_zero]
      rw [List.getD_eq_getElem prev MxCell.empty hnp, List.take_succ,
        List.getElem?_eq_getElem hnp]
      simp only [Option.toList_some, List.append_assoc, List.singleton_append]

/-- The options cell array passed to the engine is the submitted options
with the four watchdog cells appended. -/
theorem buildOptions_eq (prev : List MxCell) (peerid timallow : Nat) :
    buildOptions prev peerid timallow
      = prev ++ [MxCell.str "masterid", MxCell.num peerid,
                 MxCell.str "timallow", MxCell.num timallow] := by
  have hset : ∀ (r : List MxCell) (k : Nat) (v : MxCell),
      (prev ++ r).set (prev.length + k) v = prev ++ r.set k v := by
    intro r k v
    rw [List.set_append]
    simp
  simp only [buildOptions]
  rw [copyLoop_eq prev (List.replicate (prev.length + 4) MxCell.empty) prev.length
    le_rfl (by simp)]
  rw [List.take_length, List.drop_replicate]
  simp only [Nat.add_sub_cancel_left]
  rw [hset, hset, hset, hset]
  simp [List.replicate, List.set]

/-- The idle-engine close does nothing when its timeout has not fired. -/
theorem idleClosePhase_no (s : SlaveState) (inp : IterInput)
    (h : ¬(s.matlabRunning = true ∧ s.enginetimeout < inp.now - s.matlabFinished)) :
    idleClosePhase s inp = (s, []) := by
  simp only [idleClosePhase, if_neg h]

/-- Starting the engine is a no-op when it is already running. -/
theorem startEnginePhase_running (s : SlaveState) (inp : IterInput)
    (h : s.matlabRunning = true) :
    startEnginePhase s inp = (s, []) := by
  simp only [startEnginePhase, if_pos h]

/-- When putting `argin` succeeds, the extended options are passed to the
engine. -/
theorem engineSteps_put_options_mem (eo : EngineOutcome) (a o : List MxCell)
    (h : eo.putArginFails = false) :
    Event.engPut "options" o ∈ (engineSteps eo a o).tr := by
  simp [engineSteps, h]

/-- C1: for every job taken from the queue by the slave loop, the
computed allowance `timallow` equals `min(3*job.timreq, host.timavail)`,
and the options cell array passed to the engine is the submitted n-cell
options extended to n+4 cells whose cells n+0..n+3 hold the string
"masterid", the submitter's host id, the string "timallow", and the
computed allowance. -/
theorem c1_timallow_and_options (s : SlaveState) (inp : IterInput) (j : JobEntry)
    (rest : List JobEntry)
    (hjl : s.joblist = j :: rest)
    (hrun : s.matlabRunning = true)
    (hidle : ¬(s.matlabRunning = true ∧ s.enginetimeout < inp.now - s.matlabFinished))
    (hzom : ¬(s.engineFailed ≠ 0 ∧ ZOMBIETIMEOUT < inp.now - s.engineFailed))
    (hput : inp.eng.putArginFails = false) :
    computeTimallow j.job.timreq s.host.timavail = min (3 * j.job.timreq) s.host.timavail
    ∧ buildOptions j.opt j.host.id (computeTimallow j.job.timreq s.host.timavail)
        = j.opt ++ [MxCell.str "masterid", MxCell.num j.host.id, MxCell.str "timallow",
                    MxCell.num (computeTimallow j.job.timreq s.host.timavail)]
    ∧ Event.engPut "options"
        (buildOptions j.opt j.host.id (computeTimallow j.job.timreq s.host.timavail))
        ∈ (slaveStep s inp).2 := by
  refine ⟨?_, buildOptions_eq j.opt j.host.id (computeTimallow j.job.timreq s.host.timavail), ?_⟩
  · simp only [computeTimallow]
    split <;> omega
  · have hmem := engineSteps_put_options_mem inp.eng j.arg
      (buildOptions j.opt j.host.id (computeTimallow j.job.timreq s.host.timavail)) hput
    simp only [slaveStep, idleClosePhase_no s inp hidle, if_neg hzom, hjl,
      startEnginePhase_running s inp hrun, hrun, if_pos, execPhase]
    split <;> simp_all

/-!  Concrete sample values used by the witness instantiations. -/

/-- A sample slave host descriptor (timavail = 100). -/
def sampleHost : HostDef :=
  { id := 1, name := "slavehost", user := "worker", group := "peers",
    port := 4000, socket := "", memavail := 1000, cpuavail := 1000,
    timavail := 100, status := Status.idle, current := zeroCurrent }

/-- A sample submitting master (id = 42). -/
def sampleSubmitter : HostDef :=
  { id := 42, name := "masterhost", user := "alice", group := "peers",
    port := 3000, socket := "", memavail := 0, cpuavail := 0,
    timavail := 0, status := Status.idle, current := zeroCurrent }

/-- A sample job descriptor (id = 7, timreq = 10). -/
def sampleJobDef : JobDef :=
  { version := 1, id := 7, memreq := 0, cpureq := 0, timreq := 10,
    argsize := 8, optsize := 4 }

/-- A sample queued job from the sample submitter. -/
def sampleJob : JobEntry :=
  { host := sampleSubmitter, job := sampleJobDef,
    arg := [MxCell.num 5], opt := [MxCell.str "opt0"] }

/-- The sample submitter as a peer-table entry. -/
def samplePeer : PeerEntry := { host := sampleSubmitter, ipaddr := "192.168.1.2" }

/-- An engine run in which all five steps succeed. -/
def allOkEngine : EngineOutcome :=
  { putArginFails := false, putOptionsFails := false, evalFails := false,
    getArgoutFails := false, getOptionsFails := false,
    argoutVal := [MxCell.num 9], optionsVal := [MxCell.str "done"] }

/-- A result-send environment in which everything succeeds. -/
def allOkSendEnv : SendEnv :=
  { openOk := true, hs0 := some 1, serArgOk := true, serOptOk := true,
    mallocOk := true, argSize := 3, optSize := 2, writeHostOk := true,
    hs1 := some 1, writeDefOk := true, hs2 := some 1, writeArgOk := true,
    hs3 := some 1, writeOptOk := true, hs4 := some 1 }

/-- Cleanup variables as they are after a completed previous iteration. -/
def cleanSendVars : SendVars :=
  { server := some 0, arg := some false, opt := some false, jdef := some false }

/-- A sample slave state with the engine running and one queued job. -/
def sampleState : SlaveState :=
  { host := sampleHost, joblist := [sampleJob], peerlist := [samplePeer],
    matlabRunning := true, matlabFinished := 0, engineFailed := 0,
    engineAborted := false, jobFailed := 0, enginetimeout := 180,
    sendVars := cleanSendVars }

/-- A sample iteration environment where everything succeeds. -/
def sampleInput : IterInput :=
  { now := 50, engOpenOk := true, eng := allOkEngine, env := allOkSendEnv }

/-- Witness for C1 at timreq = 10, timavail = 100: the allowance is 30
and the options passed to the engine carry the four watchdog cells. -/
theorem c1_witness :
    computeTimallow 10 100 = 30 ∧
    (computeTimallow sampleJob.job.timreq sampleState.host.timavail
        = min (3 * sampleJob.job.timreq) sampleState.host.timavail
      ∧ buildOptions sampleJob.opt sampleJob.host.id
          (computeTimallow sampleJob.job.timreq sampleState.host.timavail)
          = sampleJob.opt ++ [MxCell.str "masterid", MxCell.num sampleJob.host.id,
              MxCell.str "timallow",
              MxCell.num (computeTimallow sampleJob.job.timreq sampleState.host.timavail)]
      ∧ Event.engPut "options"
          (buildOptions sampleJob.opt sampleJob.host.id
            (computeTimallow sampleJob.job.timreq sampleState.host.timavail))
          ∈ (slaveStep sampleState sampleInput).2) :=
  ⟨by decide,
   c1_timallow_and_options sampleState sampleInput sampleJob [] (by decide)
     (by decide) (by decide) (by decide) (by decide)⟩

/-- An engine run whose eval step fails (jobFailed = 3, aborting). -/
def evalFailEngine : EngineOutcome := { allOkEngine with evalFails := true }

/-- A sample iteration whose engine eval fails. -/
def evalFailInput : IterInput := { sampleInput with eng := evalFailEngine }

/-- C2: whenever an engine step fails, `jobFailed` is the index of the
first failing step (1 = put argin, 2 = put options, 3 = eval, 4 = get
argout, 5 = get options); `engineAborted` is set exactly for indices 3,
4, 5; and once an iteration sets `engineAborted`, the slave loop
terminates and the process exits with the value of that flag, 1. -/
theorem c2_engine_failure_codes (eo : EngineOutcome) (a o : List MxCell)
    (s : SlaveState) (i : IterInput) (rest : List IterInput)
    (hs : s.engineAborted = false)
    (hab : (slaveStep s i).1.engineAborted = true) :
    (engineSteps eo a o).jobFailed
      = (if eo.putArginFails = true then 1
         else if eo.putOptionsFails = true then 2
         else if eo.evalFails = true then 3
         else if eo.getArgoutFails = true then 4
         else if eo.getOptionsFails = true then 5 else 0)
    ∧ ((engineSteps eo a o).aborted = true ↔
        ((engineSteps eo a o).jobFailed = 3 ∨ (engineSteps eo a o).jobFailed = 4
          ∨ (engineSteps eo a o).jobFailed = 5))
    ∧ runSlave s (i :: rest) = some 1 := by
  refine ⟨?_, ?_, ?_⟩
  · rcases eo with ⟨p1, p2, p3, p4, p5, av, ov⟩
    cases p1 <;> cases p2 <;> cases p3 <;> cases p4 <;> cases p5 <;>
      simp [engineSteps]
  · rcases eo with ⟨p1, p2, p3, p4, p5, av, ov⟩
    cases p1 <;> cases p2 <;> cases p3 <;> cases p4 <;> cases p5 <;>
      simp [engineSteps]
  · cases rest <;> simp [runSlave, hs, hab]

/-- Witness for C2: an eval failure in the sample scenario sets
`jobFailed = 3`, aborts the engine, and the loop exits with 1. -/
theorem c2_witness :
    (engineSteps evalFailEngine [] []).jobFailed = 3
    ∧ (engineSteps evalFailEngine [] []).aborted = true
    ∧ runSlave sampleState [evalFailInput] = some 1 := by
  have h := c2_engine_failure_codes evalFailEngine [] [] sampleState evalFailInput []
    (by decide) (by decide)
  exact ⟨by decide, by decide, h.2.2⟩

/-- When the submitter is found, a transport exists and every handshake,
serialization and write succeeds, the result-send protocol performs the
full framed exchange and cleans up. -/
theorem sendResults_success (hd : HostDef) (plist : List PeerEntry) (peerid jobid : Nat)
    (a o : List MxCell) (v : SendVars) (env : SendEnv) (p : PeerEntry)
    (hfind : plist.find? (fun q => q.host.id == peerid) = some p)
    (htrans : ((decide (0 < p.host.socket.length) && (p.host.name == hd.name))
      || decide (0 < p.host.port)) = true)
    (h1 : env.openOk = true) (h2 : env.hs0 = some 1) (h3 : env.serArgOk = true)
    (h4 : env.serOptOk = true) (h5 : env.mallocOk = true) (h6 : env.writeHostOk = true)
    (h7 : env.hs1 = some 1) (h8 : env.writeDefOk = true) (h9 : env.hs2 = some 1)
    (h10 : env.writeArgOk = true) (h11 : env.hs3 = some 1) (h12 : env.writeOptOk = true)
    (h13 : env.hs4 = some 1) :
    (sendResults hd plist peerid jobid a o v env).tr =
      [Event.lock Mutex.peerlist, Event.lock Mutex.host, Event.unlock Mutex.host,
       Event.connOpen, Event.unlock Mutex.peerlist, Event.readHS 0,
       Event.lock Mutex.host, Event.writeFrame (FramePayload.hostF hd),
       Event.unlock Mutex.host, Event.readHS 1,
       Event.writeFrame (FramePayload.jobdefF
         { version := VERSION, id := jobid, memreq := 0, cpureq := 0, timreq := 0,
           argsize := env.argSize, optsize := env.optSize }),
       Event.readHS 2, Event.writeFrame (FramePayload.argF a), Event.readHS 3,
       Event.writeFrame (FramePayload.optF o), Event.readHS 4, Event.connClose]
    ∧ (sendResults hd plist peerid jobid a o v env).varsAfter = cleanSendVars := by
  simp [sendResults, framesTrace, hfind, htrans, h1, h2, h3, h4, h5, h6, h7, h8, h9, h10, h11, h12,
    h13, sendFinish, cleanupTrace, cleanupVars, cleanSendVars]

/-- The fields of the state are untouched by the idle-engine close,
except `matlabRunning`. -/
theorem idleClosePhase_fields (s : SlaveState) (inp : IterInput) :
    (idleClosePhase s inp).1.host = s.host
    ∧ (idleClosePhase s inp).1.engineFailed = s.engineFailed
    ∧ (idleClosePhase s inp).1.joblist = s.joblist
    ∧ countAnnounce (idleClosePhase s inp).2 = 0 := by
  unfold idleClosePhase
  split <;> simp [countAnnounce]

/-- C3: when the engine fails to start while a job is queued, the slave
records `engineFailed = now`, switches to ZOMBIE with zeroed `current`,
announces once, synthesizes the one-cell argout and the two-cell
`lasterr` options and writes them to the submitter, and leaves the queue
empty; it then stays ZOMBIE while `now - engineFailed` is within the
zombie timeout (900 s) and on expiry switches to IDLE with zeroed
`current`, announcing once. -/
theorem c3_engine_start_failure (s : SlaveState) (inp : IterInput) (j : JobEntry)
    (rest : List JobEntry) (p : PeerEntry)
    (hjl : s.joblist = j :: rest)
    (hrun : s.matlabRunning = false)
    (hef : s.engineFailed = 0)
    (hopen : inp.engOpenOk = false)
    (hnow : 0 < inp.now)
    (hfind : s.peerlist.find? (fun q => q.host.id == j.host.id) = some p)
    (htrans : ((decide (0 < p.host.socket.length) && (p.host.name == s.host.name))
      || decide (0 < p.host.port)) = true)
    (h1 : inp.env.openOk = true) (h2 : inp.env.hs0 = some 1)
    (h3 : inp.env.serArgOk = true) (h4 : inp.env.serOptOk = true)
    (h5 : inp.env.mallocOk = true) (h6 : inp.env.writeHostOk = true)
    (h7 : inp.env.hs1 = some 1) (h8 : inp.env.writeDefOk = true)
    (h9 : inp.env.hs2 = some 1) (h10 : inp.env.writeArgOk = true)
    (h11 : inp.env.hs3 = some 1) (h12 : inp.env.writeOptOk = true)
    (h13 : inp.env.hs4 = some 1) :
    ((slaveStep s inp).1.engineFailed = inp.now
      ∧ (slaveStep s inp).1.host.status = Status.zombie
      ∧ (slaveStep s inp).1.host.current = zeroCurrent
      ∧ (slaveStep s inp).1.joblist = []
      ∧ countAnnounce (slaveStep s inp).2 = 1
      ∧ errArgout = [MxCell.empty]
      ∧ engineFailOptions
          = [MxCell.str "lasterr", MxCell.str "could not start the matlab engine"]
      ∧ Event.writeFrame (FramePayload.argF errArgout) ∈ (slaveStep s inp).2
      ∧ Event.writeFrame (FramePayload.optF engineFailOptions) ∈ (slaveStep s inp).2)
    ∧ (∀ (s2 : SlaveState) (inp2 : IterInput),
        s2.engineFailed ≠ 0 → s2.joblist = [] →
        (inp2.now - s2.engineFailed ≤ ZOMBIETIMEOUT →
          (slaveStep s2 inp2).1.host.status = s2.host.status
          ∧ (slaveStep s2 inp2).1.engineFailed = s2.engineFailed)
        ∧ (ZOMBIETIMEOUT < inp2.now - s2.engineFailed →
          (slaveStep s2 inp2).1.host.status = Status.idle
          ∧ (slaveStep s2 inp2).1.host.current = zeroCurrent
          ∧ (slaveStep s2 inp2).1.engineFailed = 0
          ∧ countAnnounce (slaveStep s2 inp2).2 = 1)) := by
  constructor
  · have hidle : idleClosePhase s inp = (s, []) :=
      idleClosePhase_no s inp (by simp [hrun])
    have hzom : ¬(s.engineFailed ≠ 0 ∧ ZOMBIETIMEOUT < inp.now - s.engineFailed) := by
      simp [hef]
    have hsend := sendResults_success
      { s.host with status := Status.zombie, current := zeroCurrent } s.peerlist
      j.host.id j.job.id errArgout engineFailOptions s.sendVars inp.env p hfind
      (by simpa using htrans) h1 h2 h3 h4 h5 h6 h7 h8 h9 h10 h11 h12 h13
    simp only [slaveStep, hidle, if_neg hzom, hjl, startEnginePhase, hrun, hopen]
    simp only [Bool.false_eq_true, if_neg, ite_false, reduceIte]
    refine ⟨?_, ?_, ?_, ?_, ?_, by decide, by decide, ?_, ?_⟩ <;>
      simp_all [clearJoblist, countAnnounce, engineFailOptions, errArgout,
        Nat.pos_iff_ne_zero.mp hnow]
  · intro s2 inp2 hne hemp
    obtain ⟨hh, he, hjj, hca⟩ := idleClosePhase_fields s2 inp2
    constructor
    · intro hle
      have hcond : ¬((idleClosePhase s2 inp2).1.engineFailed ≠ 0
          ∧ ZOMBIETIMEOUT < inp2.now - (idleClosePhase s2 inp2).1.engineFailed) := by
        rw [he]; omega
      simp only [slaveStep, if_neg hcond, hjj, hemp]
      simp [hh, he]
    · intro hlt
      have hcond : ((idleClosePhase s2 inp2).1.engineFailed ≠ 0
          ∧ ZOMBIETIMEOUT < inp2.now - (idleClosePhase s2 inp2).1.engineFailed) := by
        rw [he]; exact ⟨hne, hlt⟩
      simp only [slaveStep, if_pos hcond]
      simp only [countAnnounce] at hca
      simp [countAnnounce, hca]

/-- The sample state with the engine not running. -/
def c3State : SlaveState := { sampleState with matlabRunning := false }

/-- An iteration at time 100 in which `engOpen` fails. -/
def c3Input : IterInput :=
  { now := 100, engOpenOk := false, eng := allOkEngine, env := allOkSendEnv }

/-- Witness for C3: the concrete engine-start failure switches to ZOMBIE
with `engineFailed = 100`, mails the `lasterr` options, and after a later
iteration past the 900 s timeout the slave is IDLE again. -/
theorem c3_witness :
    ((slaveStep c3State c3Input).1.engineFailed = 100
      ∧ (slaveStep c3State c3Input).1.host.status = Status.zombie
      ∧ (slaveStep c3State c3Input).1.joblist = []
      ∧ Event.writeFrame (FramePayload.optF engineFailOptions) ∈ (slaveStep c3State c3Input).2)
    ∧ ((slaveStep { c3State with engineFailed := 100, joblist := [] }
          { c3Input with now := 1001 }).1.host.status = Status.idle
      ∧ (slaveStep { c3State with engineFailed := 100, joblist := [] }
          { c3Input with now := 1001 }).1.engineFailed = 0) := by
  have h := c3_engine_start_failure c3State c3Input sampleJob [] samplePeer
    (by decide) (by decide) (by decide) (by decide) (by decide) (by decide) (by decide)
    (by decide) (by decide) (by decide) (by decide) (by decide) (by decide) (by decide)
    (by decide) (by decide) (by decide) (by decide) (by decide) (by decide)
  refine ⟨⟨h.1.1, h.1.2.1, h.1.2.2.2.1, h.1.2.2.2.2.2.2.2.2⟩, ?_⟩
  have h2 := (h.2 { c3State with engineFailed := 100, joblist := [] }
    { c3Input with now := 1001 } (by decide) (by decide)).2 (by decide)
  exact ⟨h2.1, h2.2.2.1⟩

/-- A second queued job behind the sample job (id = 8). -/
def sampleJob2 : JobEntry := { sampleJob with job := { sampleJobDef with id := 8 } }

/-- The sample state with two queued jobs. -/
def c4State : SlaveState := { sampleState with joblist := [sampleJob, sampleJob2] }

/-- Counterexample to C4 as stated: with two queued jobs, the iteration
that processes the front job leaves an EMPTY queue (`clear_joblist()`,
line 906), not a queue still holding the second job. -/
theorem c4_counterexample :
    (slaveStep c4State sampleInput).1.joblist = []
    ∧ (slaveStep c4State sampleInput).1.joblist ≠ [sampleJob2] := by
  constructor
  · decide
  · decide

/-- C4 (amended): each slave-loop iteration that processes a job
processes the front entry and then clears the ENTIRE job queue; jobs
queued behind the processed entry are discarded, not retained. -/
theorem c4_amended (s : SlaveState) (inp : IterInput) (j : JobEntry)
    (rest : List JobEntry)
    (hjl : s.joblist = j :: rest)
    (hzom : ¬(s.engineFailed ≠ 0 ∧ ZOMBIETIMEOUT < inp.now - s.engineFailed)) :
    (slaveStep s inp).1.joblist = [] := by
  obtain ⟨_, he, hjj, _⟩ := idleClosePhase_fields s inp
  have hcond : ¬((idleClosePhase s inp).1.engineFailed ≠ 0
      ∧ ZOMBIETIMEOUT < inp.now - (idleClosePhase s inp).1.engineFailed) := by
    rw [he]; exact hzom
  simp only [slaveStep, if_neg hcond, hjj, hjl]
  split <;> split <;> simp [clearJoblist]

/-- Witness for the amended C4 at the concrete two-job state. -/
theorem c4_witness : (slaveStep c4State sampleInput).1.joblist = [] :=
  c4_amended c4State sampleInput sampleJob [sampleJob2] (by decide) (by decide)

@[simp]
theorem hsReads_append (a b : List Event) : hsReads (a ++ b) = hsReads a ++ hsReads b := by
  induction a with
  | nil => simp [hsReads]
  | cons e tl ih => cases e <;> simp [hsReads, ih]

@[simp]
theorem framesWritten_append (a b : List Event) :
    framesWritten (a ++ b) = framesWritten a ++ framesWritten b := by
  induction a with
  | nil => simp [framesWritten]
  | cons e tl ih => cases e <;> simp [framesWritten, ih]

@[simp]
theorem mem_ite_singleton {α : Type} (c : Prop) [Decidable c] (x y : α) :
    (x ∈ if c then [y] else []) ↔ (c ∧ x = y) := by
  split <;> simp_all

@[simp]
theorem hsReads_ite_writeFrame (c : Prop) [Decidable c] (p : FramePayload) :
    hsReads (if c then [Event.writeFrame p] else []) = [] := by
  split <;> simp [hsReads]

@[simp]
theorem framesWritten_ite_writeFrame (c : Prop) [Decidable c] (p : FramePayload) :
    framesWritten (if c then [Event.writeFrame p] else [])
      = if c then [p.kind] else [] := by
  split <;> simp [framesWritten]

/-- Aborting at the initial handshake: nothing is written, nothing more
is read. -/
theorem sendHs0Abort (hd : HostDef) (plist : List PeerEntry) (peerid jobid : Nat)
    (a o : List MxCell) (v : SendVars) (env : SendEnv) (p : PeerEntry)
    (hfind : plist.find? (fun q => q.host.id == peerid) = some p)
    (htrans : ((decide (0 < p.host.socket.length) && (p.host.name == hd.name))
      || decide (0 < p.host.port)) = true)
    (hopen : env.openOk = true)
    (h : env.hs0 = none ∨ env.hs0 = some 0) :
    framesWritten (sendResults hd plist peerid jobid a o v env).tr = []
    ∧ hsReads (sendResults hd plist peerid jobid a o v env).tr = [0] := by
  rcases h with h | h <;>
    simp [sendResults, framesTrace, hfind, htrans, hopen, h, sendFinish, cleanupTrace,
      framesWritten, hsReads]

/-- Aborting at the handshake after the hostdef frame: only the hostdef
frame was written and only handshakes 0 and 1 were read. -/
theorem sendHs1Abort (hd : HostDef) (plist : List PeerEntry) (peerid jobid : Nat)
    (a o : List MxCell) (v : SendVars) (env : SendEnv) (p : PeerEntry)
    (hfind : plist.find? (fun q => q.host.id == peerid) = some p)
    (htrans : ((decide (0 < p.host.socket.length) && (p.host.name == hd.name))
      || decide (0 < p.host.port)) = true)
    (hopen : env.openOk = true) (hh0 : env.hs0 = some 1)
    (hsa : env.serArgOk = true) (hso : env.serOptOk = true) (hm : env.mallocOk = true)
    (h : env.hs1 = none ∨ env.hs1 = some 0) :
    framesWritten (sendResults hd plist peerid jobid a o v env).tr = [FrameKind.khost]
    ∧ hsReads (sendResults hd plist peerid jobid a o v env).tr = [0, 1] := by
  rcases h with h | h <;>
    simp [sendResults, framesTrace, hfind, htrans, hopen, hh0, hsa, hso, hm, h, sendFinish,
      cleanupTrace, framesWritten, hsReads, FramePayload.kind]

/-- Aborting at the handshake after the jobdef frame: the arg and opt
frames are never written and handshakes 3 and 4 are never read. -/
theorem sendHs2Abort (hd : HostDef) (plist : List PeerEntry) (peerid jobid : Nat)
    (a o : List MxCell) (v : SendVars) (env : SendEnv) (p : PeerEntry)
    (hfind : plist.find? (fun q => q.host.id == peerid) = some p)
    (htrans : ((decide (0 < p.host.socket.length) && (p.host.name == hd.name))
      || decide (0 < p.host.port)) = true)
    (hopen : env.openOk = true) (hh0 : env.hs0 = some 1)
    (hsa : env.serArgOk = true) (hso : env.serOptOk = true) (hm : env.mallocOk = true)
    (hh1 : env.hs1 = some 1)
    (h : env.hs2 = none ∨ env.hs2 = some 0) :
    FrameKind.karg ∉ framesWritten (sendResults hd plist peerid jobid a o v env).tr
    ∧ FrameKind.kopt ∉ framesWritten (sendResults hd plist peerid jobid a o v env).tr
    ∧ hsReads (sendResults hd plist peerid jobid a o v env).tr = [0, 1, 2] := by
  rcases h with h | h <;>
    simp [sendResults, framesTrace, hfind, htrans, hopen, hh0, hsa, hso, hm, hh1, h,
      sendFinish, cleanupTrace, framesWritten, hsReads, FramePayload.kind]

/-- Aborting at the handshake after the arg frame: the opt frame is never
written and handshake 4 is never read. -/
theorem sendHs3Abort (hd : HostDef) (plist : List PeerEntry) (peerid jobid : Nat)
    (a o : List MxCell) (v : SendVars) (env : SendEnv) (p : PeerEntry)
    (hfind : plist.find? (fun q => q.host.id == peerid) = some p)
    (htrans : ((decide (0 < p.host.socket.length) && (p.host.name == hd.name))
      || decide (0 < p.host.port)) = true)
    (hopen : env.openOk = true) (hh0 : env.hs0 = some 1)
    (hsa : env.serArgOk = true) (hso : env.serOptOk = true) (hm : env.mallocOk = true)
    (hh1 : env.hs1 = some 1) (hh2 : env.hs2 = some 1)
    (h : env.hs3 = none ∨ env.hs3 = some 0) :
    FrameKind.kopt ∉ framesWritten (sendResults hd plist peerid jobid a o v env).tr
    ∧ hsReads (sendResults hd plist peerid jobid a o v env).tr = [0, 1, 2, 3] := by
  rcases h with h | h <;>
    simp [sendResults, framesTrace, hfind, htrans, hopen, hh0, hsa, hso, hm, hh1, hh2, h,
      sendFinish, cleanupTrace, framesWritten, hsReads, FramePayload.kind]

/-- With all five handshakes positive: a short write of a frame
suppresses every later frame write, yet all five handshakes are read
whatever the write outcomes are. -/
theorem sendWrites (hd : HostDef) (plist : List PeerEntry) (peerid jobid : Nat)
    (a o : List MxCell) (v : SendVars) (env : SendEnv) (p : PeerEntry)
    (hfind : plist.find? (fun q => q.host.id == peerid) = some p)
    (htrans : ((decide (0 < p.host.socket.length) && (p.host.name == hd.name))
      || decide (0 < p.host.port)) = true)
    (hopen : env.openOk = true) (hh0 : env.hs0 = some 1)
    (hsa : env.serArgOk = true) (hso : env.serOptOk = true) (hm : env.mallocOk = true)
    (hh1 : env.hs1 = some 1) (hh2 : env.hs2 = some 1) (hh3 : env.hs3 = some 1)
    (hh4 : env.hs4 = some 1) :
    (env.writeHostOk = false →
      framesWritten (sendResults hd plist peerid jobid a o v env).tr = [FrameKind.khost])
    ∧ (env.writeDefOk = false →
      FrameKind.karg ∉ framesWritten (sendResults hd plist peerid jobid a o v env).tr
      ∧ FrameKind.kopt ∉ framesWritten (sendResults hd plist peerid jobid a o v env).tr)
    ∧ (env.writeArgOk = false →
      FrameKind.kopt ∉ framesWritten (sendResults hd plist peerid jobid a o v env).tr)
    ∧ hsReads (sendResults hd plist peerid jobid a o v env).tr = [0, 1, 2, 3, 4] := by
  refine ⟨?_, ?_, ?_, ?_⟩
  · intro h
    simp [sendResults, framesTrace, hfind, htrans, hopen, hh0, hsa, hso, hm, hh1, hh2, hh3, hh4, h,
      sendFinish, cleanupTrace, framesWritten, hsReads, FramePayload.kind]
  · intro h
    constructor <;>
      simp [sendResults, framesTrace, hfind, htrans, hopen, hh0, hsa, hso, hm, hh1, hh2,
        hh3, hh4, h, sendFinish, cleanupTrace, framesWritten, hsReads, FramePayload.kind]
  · intro h
    simp [sendResults, framesTrace, hfind, htrans, hopen, hh0, hsa, hso, hm, hh1, hh2, hh3, hh4, h,
      sendFinish, cleanupTrace, framesWritten, hsReads, FramePayload.kind]
    rintro (h1 | h1) h2 <;> simp_all
  · simp [sendResults, framesTrace, hfind, htrans, hopen, hh0, hsa, hso, hm, hh1, hh2, hh3, hh4,
      sendFinish, cleanupTrace, framesWritten, hsReads, FramePayload.kind]

/-- C5 (amended): in the result-send protocol a handshake that cannot be
read or equals 0 aborts the remainder entirely (no later frame write and
no later handshake read), and a short write of a frame suppresses every
later frame write; but a short write does NOT stop the handshake reads:
with positive handshakes all five handshakes are read whatever the write
outcomes are. -/
theorem c5_short_write_and_handshakes (hd : HostDef) (plist : List PeerEntry)
    (peerid jobid : Nat) (a o : List MxCell) (v : SendVars) (env : SendEnv)
    (p : PeerEntry)
    (hfind : plist.find? (fun q => q.host.id == peerid) = some p)
    (htrans : ((decide (0 < p.host.socket.length) && (p.host.name == hd.name))
      || decide (0 < p.host.port)) = true)
    (hopen : env.openOk = true)
    (hsa : env.serArgOk = true) (hso : env.serOptOk = true) (hm : env.mallocOk = true) :
    ((env.hs0 = none ∨ env.hs0 = some 0 →
        framesWritten (sendResults hd plist peerid jobid a o v env).tr = []
        ∧ hsReads (sendResults hd plist peerid jobid a o v env).tr = [0])
     ∧ (env.hs0 = some 1 → env.hs1 = none ∨ env.hs1 = some 0 →
        framesWritten (sendResults hd plist peerid jobid a o v env).tr = [FrameKind.khost]
        ∧ hsReads (sendResults hd plist peerid jobid a o v env).tr = [0, 1])
     ∧ (env.hs0 = some 1 → env.hs1 = some 1 → env.hs2 = none ∨ env.hs2 = some 0 →
        FrameKind.karg ∉ framesWritten (sendResults hd plist peerid jobid a o v env).tr
        ∧ FrameKind.kopt ∉ framesWritten (sendResults hd plist peerid jobid a o v env).tr
        ∧ hsReads (sendResults hd plist peerid jobid a o v env).tr = [0, 1, 2])
     ∧ (env.hs0 = some 1 → env.hs1 = some 1 → env.hs2 = some 1 →
        env.hs3 = none ∨ env.hs3 = some 0 →
        FrameKind.kopt ∉ framesWritten (sendResults hd plist peerid jobid a o v env).tr
        ∧ hsReads (sendResults hd plist peerid jobid a o v env).tr = [0, 1, 2, 3]))
    ∧ (env.hs0 = some 1 → env.hs1 = some 1 → env.hs2 = some 1 → env.hs3 = some 1 →
       env.hs4 = some 1 →
       (env.writeHostOk = false →
         framesWritten (sendResults hd plist peerid jobid a o v env).tr = [FrameKind.khost])
       ∧ (env.writeDefOk = false →
         FrameKind.karg ∉ framesWritten (sendResults hd plist peerid jobid a o v env).tr
         ∧ FrameKind.kopt ∉ framesWritten (sendResults hd plist peerid jobid a o v env).tr)
       ∧ (env.writeArgOk = false →
         FrameKind.kopt ∉ framesWritten (sendResults hd plist peerid jobid a o v env).tr)
       ∧ hsReads (sendResults hd plist peerid jobid a o v env).tr = [0, 1, 2, 3, 4]) := by
  refine ⟨⟨?_, ?_, ?_, ?_⟩, ?_⟩
  · exact sendHs0Abort hd plist peerid jobid a o v env p hfind htrans hopen
  · intro hh0 h
    exact sendHs1Abort hd plist peerid jobid a o v env p hfind htrans hopen hh0 hsa hso hm h
  · intro hh0 hh1 h
    exact sendHs2Abort hd plist peerid jobid a o v env p hfind htrans hopen hh0 hsa hso hm hh1 h
  · intro hh0 hh1 hh2 h
    exact sendHs3Abort hd plist peerid jobid a o v env p hfind htrans hopen hh0 hsa hso hm hh1 hh2 h
  · intro hh0 hh1 hh2 hh3 hh4
    exact sendWrites hd plist peerid jobid a o v env p hfind htrans hopen hh0 hsa hso hm hh1 hh2 hh3 hh4

/-- A result-send environment where the hostdef write is short but every
handshake reads 1. -/
def shortHostWriteEnv : SendEnv := { allOkSendEnv with writeHostOk := false }

/-- A result-send environment whose third handshake reads 0. -/
def hs2FailEnv : SendEnv := { allOkSendEnv with hs2 := some 0 }

/-- Counterexample to C5 as stated: with a short write of the hostdef
frame, the protocol still reads every subsequent handshake (handshakes
0..4 are all read), contradicting "no subsequent handshake is read". -/
theorem c5_counterexample :
    shortHostWriteEnv.writeHostOk = false
    ∧ Event.writeFrame (FramePayload.hostF sampleHost)
        ∈ (sendResults sampleHost [samplePeer] 42 7 errArgout engineFailOptions
            cleanSendVars shortHostWriteEnv).tr
    ∧ hsReads (sendResults sampleHost [samplePeer] 42 7 errArgout engineFailOptions
        cleanSendVars shortHostWriteEnv).tr = [0, 1, 2, 3, 4] := by
  decide

/-- Witness for the amended C5: a short hostdef write leaves only the
hostdef frame written while all five handshakes are read, and a zero
third handshake aborts the rest of the protocol. -/
theorem c5_witness :
    (framesWritten (sendResults sampleHost [samplePeer] 42 7 errArgout engineFailOptions
        cleanSendVars shortHostWriteEnv).tr = [FrameKind.khost]
      ∧ hsReads (sendResults sampleHost [samplePeer] 42 7 errArgout engineFailOptions
        cleanSendVars shortHostWriteEnv).tr = [0, 1, 2, 3, 4])
    ∧ (FrameKind.karg ∉ framesWritten (sendResults sampleHost [samplePeer] 42 7 errArgout
        engineFailOptions cleanSendVars hs2FailEnv).tr
      ∧ hsReads (sendResults sampleHost [samplePeer] 42 7 errArgout engineFailOptions
        cleanSendVars hs2FailEnv).tr = [0, 1, 2]) := by
  have h1 := (c5_short_write_and_handshakes sampleHost [samplePeer] 42 7 errArgout
    engineFailOptions cleanSendVars shortHostWriteEnv samplePeer (by decide) (by decide)
    (by decide) (by decide) (by decide) (by decide)).2
    (by decide) (by decide) (by decide) (by decide) (by decide)
  have h2 := (c5_short_write_and_handshakes sampleHost [samplePeer] 42 7 errArgout
    engineFailOptions cleanSendVars hs2FailEnv samplePeer (by decide) (by decide)
    (by decide) (by decide) (by decide) (by decide)).1.2.2.1
    (by decide) (by decide) (Or.inr (by decide))
  exact ⟨⟨h1.1 (by decide), h1.2.2.2⟩, ⟨h2.1, h2.2.2⟩⟩

/-- C6: the peer-not-found path (lines 750-754) jumps to `cleanup`
BEFORE the initialization of `server`, `arg` and `opt` (lines 762-765),
so on the first job iteration the cleanup code reads all three while they
are still indeterminate — contradicting the comment at line 761 ("these
have to be initialized to NULL to ensure that the cleanup works") and the
claim that every path reaching `cleanup` has them defined.  `def` alone
is defined (NULL-initialized at its declaration). -/
theorem c6_uninitialized_at_cleanup :
    (sendResults sampleHost [] 42 7 errArgout engineFailOptions initialSendVars
        allOkSendEnv).atCleanup.server = none
    ∧ (sendResults sampleHost [] 42 7 errArgout engineFailOptions initialSendVars
        allOkSendEnv).atCleanup.arg = none
    ∧ (sendResults sampleHost [] 42 7 errArgout engineFailOptions initialSendVars
        allOkSendEnv).atCleanup.opt = none
    ∧ (sendResults sampleHost [] 42 7 errArgout engineFailOptions initialSendVars
        allOkSendEnv).atCleanup.jdef = some false := by
  decide

theorem discSim_append (a : List Event) (b : List Event) (h : List Mutex) :
    discSim h (a ++ b) = (discSim h a).bind (fun h2 => discSim h2 b) := by
  induction a generalizing h with
  | nil => rfl
  | cons e tl ih =>
      simp only [List.cons_append, discSim]
      split
      · exact ih _
      · rfl

@[simp]
theorem discSim_ite (c : Prop) [Decidable c] (h : List Mutex) (x y : List Event) :
    discSim h (if c then x else y) = if c then discSim h x else discSim h y := by
  split <;> rfl

/-- The idle-engine close respects the locking discipline. -/
theorem idleClose_disc (s : SlaveState) (inp : IterInput) :
    discSim [] (idleClosePhase s inp).2 = some [] := by
  unfold idleClosePhase
  split <;> simp [discSim, eventHeldOk, applyEvent]

/-- The engine-start phase respects the locking discipline. -/
theorem startEngine_disc (s : SlaveState) (inp : IterInput) :
    discSim [] (startEnginePhase s inp).2 = some [] := by
  unfold startEnginePhase
  split <;> [skip; split] <;>
    simp [discSim, eventHeldOk, applyEvent, allowedHeld]

/-- The engine step sequence runs entirely lock-free. -/
theorem engineSteps_disc (eo : EngineOutcome) (a o : List MxCell) :
    discSim [] (engineSteps eo a o).tr = some [] := by
  simp [engineSteps, discSim_append, discSim, eventHeldOk, applyEvent]

/-- The job-execution phase respects the locking discipline: `mutexhost`
is taken while `mutexjoblist` is held, the announce runs under
`mutexjoblist`, and the engine calls run lock-free. -/
theorem execPhase_disc (s : SlaveState) (inp : IterInput) (j : JobEntry) :
    discSim [] (execPhase s inp j).2.1 = some [] := by
  simp [execPhase, discSim_append, discSim, eventHeldOk, applyEvent, allowedHeld,
    engineSteps_disc]

/-- The cleanup code runs lock-free. -/
theorem cleanupTrace_disc (v : SendVars) :
    discSim [] (cleanupTrace v) = some [] := by
  unfold cleanupTrace
  split
  · split <;> simp [discSim, eventHeldOk, applyEvent]
  · rfl

@[simp]
theorem sendOut_tr_ite (c : Prop) [Decidable c] (x y : SendOut) :
    (if c then x else y).tr = if c then x.tr else y.tr := by
  split <;> rfl

set_option maxHeartbeats 4000000 in
/-- The result-send protocol respects the locking discipline:
`mutexhost` is taken while `mutexpeerlist` is held, the connection is
opened under `mutexpeerlist`, the hostdef frame is written under
`mutexhost`, and all handshake reads and remaining writes run
lock-free. -/
theorem sendResults_disc (hd : HostDef) (plist : List PeerEntry) (peerid jobid : Nat)
    (a o : List MxCell) (v : SendVars) (env : SendEnv) :
    discSim [] (sendResults hd plist peerid jobid a o v env).tr = some [] := by
  obtain ⟨openOk, hs0, serArgOk, serOptOk, mallocOk, argSize, optSize, wH, hs1, wD,
    hs2, wA, hs3, wO, hs4⟩ := env
  unfold sendResults
  rcases hs0 with _ | x0 <;> rcases hs1 with _ | x1 <;> rcases hs2 with _ | x2 <;>
    rcases hs3 with _ | x3 <;> rcases hs4 with _ | x4
  all_goals repeat' split
  all_goals
    simp [sendFinish, framesTrace, discSim_append, discSim, eventHeldOk, applyEvent,
      allowedHeld, cleanupTrace_disc]

@[simp]
theorem prod_fst_ite (c : Prop) [Decidable c] {α β : Type} (x y : α × β) :
    (if c then x else y).1 = if c then x.1 else y.1 := by
  split <;> rfl

@[simp]
theorem prod_snd_ite (c : Prop) [Decidable c] {α β : Type} (x y : α × β) :
    (if c then x else y).2 = if c then x.2 else y.2 := by
  split <;> rfl

/-- C7 (amended): in every slave-loop iteration the trace of lock,
engine, socket and announce events satisfies this discipline: at most two
registry mutexes are held at once and only in the nestings
`mutexhost` inside `mutexjoblist` and `mutexhost` inside
`mutexpeerlist`; engine calls, handshake reads, connection closes and the
jobdef/arg/opt frame writes run with no registry mutex held; but the
hostdef frame write is performed holding `mutexhost`, the connection is
opened holding `mutexpeerlist`, and the announce that claims a job is
issued holding `mutexjoblist`. -/
theorem c7_lock_discipline (s : SlaveState) (inp : IterInput) :
    discSim [] (slaveStep s inp).2 = some [] := by
  simp only [slaveStep]
  split
  · simp [discSim_append, idleClose_disc, discSim, eventHeldOk, applyEvent, allowedHeld]
  · split
    · simp [discSim_append, idleClose_disc, discSim, eventHeldOk, applyEvent]
    · split <;>
        simp [discSim_append, idleClose_disc, startEngine_disc, execPhase_disc,
          sendResults_disc, discSim, eventHeldOk, applyEvent, allowedHeld]

/-- Counterexample to C7 as stated: in the sample iteration the slave
loop holds two registry mutexes at once (`mutexhost` is acquired at line
594 while `mutexjoblist` from line 591 is still held). -/
theorem c7_counterexample :
    twoHeldAt [] (slaveStep sampleState sampleInput).2 = true := by
  decide

/-- Over any run of the supervisor loop, the host ids handed to forked
children are consecutive, starting right above the initial id. -/
theorem superRun_forkIds (inps : List SupInput) (s : SuperState) :
    ∃ m, forkIds (superRun s inps) = List.range' (s.hostid + 1) m := by
  induction inps generalizing s with
  | nil => exact ⟨0, rfl⟩
  | cons i rest ih =>
      simp only [superRun]
      rcases hring : s.ring with _ | ⟨p, r⟩
      · simp only [superStep, hring]
        simpa [forkIds] using ih s
      · by_cases hp : reapChild p i.status = 0
        · obtain ⟨m, hm⟩ := ih { hostid := s.hostid + 1, ring := r ++ [i.newpid] }
          refine ⟨m + 1, ?_⟩
          simp only [superStep, hring, hp, if_pos]
          simp only [forkIds, List.filterMap_append] at hm ⊢
          simp [hm, List.range'_succ]
        · obtain ⟨m, hm⟩ := ih { s with ring := r ++ [reapChild p i.status] }
          refine ⟨m, ?_⟩
          simp only [superStep, hring, hp, if_neg]
          simp only [forkIds, List.filterMap_append] at hm ⊢
          simpa using hm

/-- C8: across all children spawned by one supervisor, `host.id` strictly
increases: the fork ids over any run are the consecutive naturals above
the starting id (hence pairwise increasing); every fork is preceded by
exactly one increment of `host.id` performed under `mutexhost`; and a
stopped (not exited) child triggers no increment and no respawn — the
supervisor merely advances to the next configuration. -/
theorem c8_supervisor_id_increments (s : SuperState) (inps : List SupInput)
    (p : Nat) (rest : List Nat) (inp : SupInput)
    (hring : s.ring = p :: rest) :
    (p ≠ 0 → inp.status = ChildStatus.stopped →
      superStep s inp = ({ s with ring := rest ++ [p] }, []))
    ∧ (reapChild p inp.status = 0 →
      superStep s inp = ({ hostid := s.hostid + 1, ring := rest ++ [inp.newpid] },
        [SupEvent.lockHost, SupEvent.incrId, SupEvent.unlockHost,
         SupEvent.forkChild (s.hostid + 1) inp.newpid]))
    ∧ (∃ m, forkIds (superRun s inps) = List.range' (s.hostid + 1) m)
    ∧ (forkIds (superRun s inps)).Pairwise (· < ·) := by
  refine ⟨?_, ?_, superRun_forkIds inps s, ?_⟩
  · intro hp hst
    simp [superStep, hring, reapChild, hp, hst]
  · intro hreap
    simp [superStep, hring, hreap]
  · obtain ⟨m, hm⟩ := superRun_forkIds inps s
    rw [hm]
    exact List.pairwise_lt_range' (s.hostid + 1) m

/-- A sample supervisor state: one child configuration, currently running
as pid 500, host id 3. -/
def sampleSuper : SuperState := { hostid := 3, ring := [500] }

/-- Witness for C8: a stopped child leaves the supervisor state intact;
an exited child is reaped and respawned with the id incremented by
exactly 1 under `mutexhost`; and over a concrete run with two exits the
fork ids are the consecutive ids 4 and 5. -/
theorem c8_witness :
    (superStep sampleSuper { status := ChildStatus.stopped, newpid := 501 }
      = ({ hostid := 3, ring := [500] }, []))
    ∧ (superStep sampleSuper { status := ChildStatus.exited, newpid := 501 }
      = ({ hostid := 4, ring := [501] },
         [SupEvent.lockHost, SupEvent.incrId, SupEvent.unlockHost,
          SupEvent.forkChild 4 501]))
    ∧ forkIds (superRun sampleSuper
        [{ status := ChildStatus.exited, newpid := 501 },
         { status := ChildStatus.signaled, newpid := 502 },
         { status := ChildStatus.running, newpid := 503 }]) = List.range' 4 2 := by
  have h := c8_supervisor_id_increments sampleSuper
    [{ status := ChildStatus.exited, newpid := 501 },
     { status := ChildStatus.signaled, newpid := 502 },
     { status := ChildStatus.running, newpid := 503 }]
    500 [] { status := ChildStatus.stopped, newpid := 501 } (by decide)
  refine ⟨?_, ?_, by decide⟩
  · exact h.1 (by decide) (by decide)
  · have h2 := c8_supervisor_id_increments sampleSuper
      [] 500 [] { status := ChildStatus.exited, newpid := 501 } (by decide)
    exact h2.2.1 (by decide)

/-- Once `help_flag` is set it stays set through the rest of a valid
option list. -/
theorem parseArgs_true (l : List Token) (hbad : Token.badTok ∉ l) :
    parseArgs l true = some true := by
  induction l with
  | nil => rfl
  | cons t tl ih =>
      cases t with
      | helpTok => exact ih (by simp_all)
      | valTok i vstr => exact ih (by simp_all)
      | badTok => simp_all

/-- A valid option list containing `--help` parses with `help_flag`
set. -/
theorem parseArgs_help (l : List Token) (flag : Bool) (hbad : Token.badTok ∉ l)
    (hhelp : Token.helpTok ∈ l) :
    parseArgs l flag = some true := by
  induction l generalizing flag with
  | nil => simp at hhelp
  | cons t tl ih =>
      cases t with
      | helpTok => exact parseArgs_true tl (by simp_all)
      | valTok i vstr =>
          apply ih <;> simp_all
      | badTok => simp_all

/-- Counterexample to C9 as stated: invoked as `peerslave --help`
(argc = 2), the single argument is treated as a configuration file, so
the program panics ("cannot read the configuration file") when no such
file exists, and even when a file named `--help` were readable it would
proceed as a slave — in neither case does it print usage and exit 0. -/
theorem c9_counterexample :
    mainStartup [Token.helpTok] false ≠ Startup.exitHelp
    ∧ mainStartup [Token.helpTok] false = Startup.panicked
    ∧ mainStartup [Token.helpTok] true ≠ Startup.exitHelp := by
  decide

/-- C9 (amended): for every invocation with argc different from 2 whose
arguments are all recognized by the option parser (no unknown option, no
missing value) and contain `--help`, the program prints the usage message
and exits 0.  With argc = 2 the single argument is read as a
configuration file instead, even if it is `--help`. -/
theorem c9_help_behaviour (argvTail : List Token) (cfg : Bool)
    (hlen : ¬argvTail.length = 1)
    (hbad : Token.badTok ∉ argvTail)
    (hhelp : Token.helpTok ∈ argvTail) :
    mainStartup argvTail cfg = Startup.exitHelp := by
  unfold mainStartup
  rw [if_neg hlen, parseArgs_help argvTail false hbad hhelp]
  rfl

/-- Witness for the amended C9: `peerslave --help --verbose=5` (argc = 3)
prints usage and exits 0. -/
theorem c9_witness :
    mainStartup [Token.helpTok, Token.valTok 14 "5"] false = Startup.exitHelp :=
  c9_help_behaviour [Token.helpTok, Token.valTok 14 "5"] false (by decide)
    (by decide) (by decide)

/-- When the submitter is found but offers neither a UDS path on this
host nor a positive TCP port, the result-send protocol unlocks and jumps
straight to cleanup: no connection is attempted and nothing is written or
read. -/
theorem sendResults_no_transport (hd : HostDef) (plist : List PeerEntry)
    (peerid jobid : Nat) (a o : List MxCell) (v : SendVars) (env : SendEnv)
    (p : PeerEntry)
    (hfind : plist.find? (fun q => q.host.id == peerid) = some p)
    (htrans : ((decide (0 < p.host.socket.length) && (p.host.name == hd.name))
      || decide (0 < p.host.port)) = false) :
    (sendResults hd plist peerid jobid a o v env).tr
      = [Event.lock Mutex.peerlist, Event.lock Mutex.host, Event.unlock Mutex.host,
         Event.unlock Mutex.peerlist]
    ∧ (sendResults hd plist peerid jobid a o v env).varsAfter = cleanSendVars := by
  simp [sendResults, hfind, htrans, sendFinish, cleanupTrace, cleanupVars, cleanSendVars]


/-- In an iteration that processes a job with the engine running and all
engine steps succeeding, the observable final state is IDLE with zeroed
`current`, an empty queue and `matlabFinished = now` — independently of
the peer table and of the result-send environment. -/
theorem slaveStep_scenario_obs (s : SlaveState) (inp : IterInput) (j : JobEntry)
    (rest : List JobEntry)
    (hjl : s.joblist = j :: rest)
    (hrun : s.matlabRunning = true)
    (hidle : ¬(s.matlabRunning = true ∧ s.enginetimeout < inp.now - s.matlabFinished))
    (hef : s.engineFailed = 0)
    (he1 : inp.eng.putArginFails = false) (he2 : inp.eng.putOptionsFails = false)
    (he3 : inp.eng.evalFails = false) (he4 : inp.eng.getArgoutFails = false)
    (he5 : inp.eng.getOptionsFails = false) :
    obsState (slaveStep s inp).1
      = ({ s.host with status := Status.idle, current := zeroCurrent }, [], true,
         inp.now, 0, s.engineAborted, 0) := by
  have hA : idleClosePhase s inp = (s, []) := idleClosePhase_no s inp hidle
  have hB : startEnginePhase s inp = (s, []) := startEnginePhase_running s inp hrun
  have hzomn : ¬(s.engineFailed ≠ 0 ∧ ZOMBIETIMEOUT < inp.now - s.engineFailed) := by
    simp [hef]
  simp only [slaveStep, hA, hB, if_neg hzomn, hjl, hrun, execPhase, if_pos, obsState]
  simp [engineSteps, he1, he2, he3, he4, he5, hef, clearJoblist, hrun]

/-- C10: if the submitter is found in the peer table but offers neither a
UDS path on this host nor a positive TCP port, the result send is skipped
without any connection attempt (no frame is written either), the job
queue is still cleared, and — the engine not having failed to start — the
slave ends the iteration IDLE with zeroed `current` and announces:
observationally the same final state as a completed send, since the
observable state does not depend on the peer snapshot or the send
environment. -/
theorem c10_no_transport_skip (s : SlaveState) (inp : IterInput) (j : JobEntry)
    (rest : List JobEntry) (p : PeerEntry)
    (hjl : s.joblist = j :: rest)
    (hrun : s.matlabRunning = true)
    (hidle : ¬(s.matlabRunning = true ∧ s.enginetimeout < inp.now - s.matlabFinished))
    (hef : s.engineFailed = 0)
    (hfind : s.peerlist.find? (fun q => q.host.id == j.host.id) = some p)
    (htrans : ((decide (0 < p.host.socket.length) && (p.host.name == s.host.name))
      || decide (0 < p.host.port)) = false)
    (he1 : inp.eng.putArginFails = false) (he2 : inp.eng.putOptionsFails = false)
    (he3 : inp.eng.evalFails = false) (he4 : inp.eng.getArgoutFails = false)
    (he5 : inp.eng.getOptionsFails = false) :
    ((slaveStep s inp).1.joblist = []
    ∧ (slaveStep s inp).1.host.status = Status.idle
    ∧ (slaveStep s inp).1.host.current = zeroCurrent
    ∧ (slaveStep s inp).1.matlabFinished = inp.now
    ∧ Event.connOpen ∉ (slaveStep s inp).2
    ∧ (∀ q, Event.writeFrame q ∉ (slaveStep s inp).2)
    ∧ Event.announce ∈ (slaveStep s inp).2)
    ∧ (∀ (plist2 : List PeerEntry) (env2 : SendEnv),
        obsState (slaveStep s inp).1
          = obsState (slaveStep { s with peerlist := plist2 }
              { inp with env := env2 }).1) := by
  have hA : idleClosePhase s inp = (s, []) := idleClosePhase_no s inp hidle
  have hB : startEnginePhase s inp = (s, []) := startEnginePhase_running s inp hrun
  have hzomn : ¬(s.engineFailed ≠ 0 ∧ ZOMBIETIMEOUT < inp.now - s.engineFailed) := by
    simp [hef]
  have hsend : ∀ (a o : List MxCell) (v : SendVars) (env : SendEnv),
      (sendResults { s.host with status := Status.busy, current :=
          { hostid := j.host.id, jobid := j.job.id, name := j.host.name,
            user := j.host.user, group := j.host.group,
            timreq := j.job.timreq, memreq := j.job.memreq, cpureq := j.job.cpureq } }
        s.peerlist j.host.id j.job.id a o v env).tr
      = [Event.lock Mutex.peerlist, Event.lock Mutex.host, Event.unlock Mutex.host,
         Event.unlock Mutex.peerlist] :=
    fun a o v env => (sendResults_no_transport
      { s.host with status := Status.busy, current :=
          { hostid := j.host.id, jobid := j.job.id, name := j.host.name,
            user := j.host.user, group := j.host.group,
            timreq := j.job.timreq, memreq := j.job.memreq, cpureq := j.job.cpureq } }
      s.peerlist j.host.id j.job.id a o v env p hfind htrans).1
  constructor
  · simp only [slaveStep, hA, hB, if_neg hzomn, hjl, hrun, execPhase, if_pos]
    simp [engineSteps, he1, he2, he3, he4, he5, hef, clearJoblist, hsend]
  · intro plist2 env2
    rw [slaveStep_scenario_obs s inp j rest hjl hrun hidle hef he1 he2 he3 he4 he5,
      slaveStep_scenario_obs { s with peerlist := plist2 } { inp with env := env2 }
        j rest hjl hrun hidle hef he1 he2 he3 he4 he5]

/-- The sample submitter with no UDS path and no TCP port. -/
def noTransportPeer : PeerEntry :=
  { host := { sampleSubmitter with port := 0 }, ipaddr := "192.168.1.2" }

/-- The sample state whose peer table offers no transport back. -/
def c10State : SlaveState := { sampleState with peerlist := [noTransportPeer] }

/-- Witness for C10: with a transportless submitter the iteration ends
IDLE with an empty queue, attempts no connection, and its observable
final state equals the one of the same iteration sent over a working TCP
peer. -/
theorem c10_witness :
    (slaveStep c10State sampleInput).1.host.status = Status.idle
    ∧ (slaveStep c10State sampleInput).1.joblist = []
    ∧ Event.connOpen ∉ (slaveStep c10State sampleInput).2
    ∧ obsState (slaveStep c10State sampleInput).1
        = obsState (slaveStep { c10State with peerlist := [samplePeer] }
            { sampleInput with env := allOkSendEnv }).1 := by
  have h := c10_no_transport_skip c10State sampleInput sampleJob [] noTransportPeer
    (by decide) (by decide) (by decide) (by decide) (by decide) (by decide)
    (by decide) (by decide) (by decide) (by decide) (by decide)
  exact ⟨h.1.2.1, h.1.1, h.1.2.2.2.2.1, h.2 [samplePeer] allOkSendEnv⟩
